import Mathlib

/-!
Verification of the Polyglot Pal structured-output AI request pipeline.

The definitions below embed the repository's Genkit flow sources:
  * src/public/src/ai/flows/correct-writing.ts  (correction flow: zod schemas,
    prompt template, flow body)
  * src/unnamed/part_002                        (summarize-content flow)
  * src/src/components/polyglot-pal/CorrectionInterface.tsx (UI state)
Parts of the system that live outside the repository sources (the Genkit
execution machinery and src/ai/flows/translate-content.ts) are modelled from
the specification and marked as such in their doc comments.
-/

namespace PolyglotPal

/-- A JSON value, the shape of data crossing the pipeline boundary:
caller-supplied input records and model responses.  Objects are ordered
association lists, as produced by JSON parsing. -/
inductive JsonValue where
  | null
  | str (s : String)
  | bool (b : Bool)
  | num (n : Int)
  | arr (elems : List JsonValue)
  | obj (fields : List (String × JsonValue))

/-- Look a key up in a JSON object's field list (first occurrence wins). -/
def jsonLookup (fields : List (String × JsonValue)) (key : String) : Option JsonValue :=
  (fields.find? (fun p => p.1 == key)).map (fun p => p.2)

/-! ### zod combinators

`z.string()` on a required key, and the repository's idiom
`z.<type>().default(v).optional()`.  In zod 3 `.optional()` wraps the
`.default(v)` schema, and `ZodOptional._parse` returns `undefined`
immediately when the incoming value is `undefined`, so for an absent key
the declared default is never applied: the parsed field stays absent.
The combinators below reproduce exactly that behaviour; each returns the
offending key name on failure (zod reports the issue path). -/

/-- `z.string()` at a required key: present string value or an issue naming the key. -/
def reqString (fields : List (String × JsonValue)) (key : String) : Except String String :=
  match jsonLookup fields key with
  | some (.str s) => .ok s
  | _ => .error key

/-- `z.string().optional()` (also `z.string().default(v).optional()`):
absent key parses to `none`; a present value must be a string. -/
def optString (fields : List (String × JsonValue)) (key : String) :
    Except String (Option String) :=
  match jsonLookup fields key with
  | none => .ok none
  | some (.str s) => .ok (some s)
  | some _ => .error key

/-- `z.boolean().default(v).optional()`: absent key parses to `none`
(the default is dead, see above); a present value must be a boolean. -/
def optBool (fields : List (String × JsonValue)) (key : String) :
    Except String (Option Bool) :=
  match jsonLookup fields key with
  | none => .ok none
  | some (.bool b) => .ok (some b)
  | some _ => .error key

/-- `z.enum(lits).default(v).optional()`: absent key parses to `none`;
a present value must be a string among the literals. -/
def optEnum (fields : List (String × JsonValue)) (key : String)
    (lits : List String) : Except String (Option String) :=
  match jsonLookup fields key with
  | none => .ok none
  | some (.str s) => if s ∈ lits then .ok (some s) else .error key
  | some _ => .error key

/-- The field issues contributed by one check (zod collects all issues). -/
def errList {α : Type} : Except String α → List String
  | .error e => [e]
  | .ok _ => []

/-- The parsed value of a check, when it succeeded. -/
def okOr {α : Type} (d : α) : Except String α → α
  | .ok a => a
  | .error _ => d

/-! ### Correction flow input schema

`CorrectWritingInputSchema` of src/public/src/ai/flows/correct-writing.ts
(lines 20-39): `text` and `language` required strings, `correctionLevel`
an optional enum of gentle/standard/strict, and seven optional booleans,
each declared with `.default(v).optional()` in that order. -/

/-- The parsed correction-flow input record.  Optional fields are `Option`
because zod's `.default(v).optional()` leaves absent fields `undefined`. -/
structure CorrectWritingInput where
  text : String
  language : String
  correctionLevel : Option String
  flagGrammar : Option Bool
  flagSpelling : Option Bool
  flagPunctuation : Option Bool
  flagStyle : Option Bool
  analyzeTone : Option Bool
  explainIdioms : Option Bool
  suggestStructureVariations : Option Bool
  deriving DecidableEq

/-- The `correctionLevel` enum literals. -/
def correctionLevels : List String := ["gentle", "standard", "strict"]

/-- All field issues raised by `CorrectWritingInputSchema` on an object. -/
def correctWritingInputIssues (fields : List (String × JsonValue)) : List String :=
  errList (reqString fields "text") ++
  errList (reqString fields "language") ++
  errList (optEnum fields "correctionLevel" correctionLevels) ++
  errList (optBool fields "flagGrammar") ++
  errList (optBool fields "flagSpelling") ++
  errList (optBool fields "flagPunctuation") ++
  errList (optBool fields "flagStyle") ++
  errList (optBool fields "analyzeTone") ++
  errList (optBool fields "explainIdioms") ++
  errList (optBool fields "suggestStructureVariations")

/-- `CorrectWritingInputSchema.parse`: structural validation of the input
record.  A non-object is rejected outright; otherwise every field issue is
collected and reported (zod aggregates issues across fields). -/
def parseCorrectWritingInput (j : JsonValue) :
    Except (List String) CorrectWritingInput :=
  match j with
  | .obj fields =>
    if correctWritingInputIssues fields = [] then
      .ok {
        text := okOr "" (reqString fields "text")
        language := okOr "" (reqString fields "language")
        correctionLevel := okOr none (optEnum fields "correctionLevel" correctionLevels)
        flagGrammar := okOr none (optBool fields "flagGrammar")
        flagSpelling := okOr none (optBool fields "flagSpelling")
        flagPunctuation := okOr none (optBool fields "flagPunctuation")
        flagStyle := okOr none (optBool fields "flagStyle")
        analyzeTone := okOr none (optBool fields "analyzeTone")
        explainIdioms := okOr none (optBool fields "explainIdioms")
        suggestStructureVariations := okOr none (optBool fields "suggestStructureVariations")
      }
    else .error (correctWritingInputIssues fields)
  | _ => .error ["input"]

example :
    parseCorrectWritingInput (.obj [("text", .str "hi"), ("language", .str "English")]) =
      .ok ⟨"hi", "English", none, none, none, none, none, none, none, none⟩ := by
  rfl

example :
    parseCorrectWritingInput (.obj [("language", .str "English")]) =
      .error ["text"] := by
  rfl

/-! ### Correction flow output schema

`CorrectWritingOutputSchema` of src/public/src/ai/flows/correct-writing.ts
(lines 42-66): `correctedText` required, five optional sections, two of
which are arrays of nested objects and one a nested object.  Parsing is
first-failure and reports the offending key; serialization renders a
record back to the JSON shape the model is asked to produce, omitting
absent optional fields. -/

/-- An entry of `keyVocabulary` (`VocabularyItemSchema`). -/
structure VocabularyItem where
  term : String
  explanation : String
  deriving DecidableEq

/-- The `toneAnalysis` object (`ToneAnalysisSchema`). -/
structure ToneAnalysis where
  detectedTone : String
  suggestions : Option String
  deriving DecidableEq

/-- An entry of `idiomExplanations` (`IdiomExplanationSchema`). -/
structure IdiomExplanation where
  idiom : String
  meaning : String
  «example» : Option String
  deriving DecidableEq

/-- The parsed correction-flow output record (`CorrectWritingOutputSchema`). -/
structure CorrectWritingOutput where
  correctedText : String
  explanation : Option String
  keyVocabulary : Option (List VocabularyItem)
  toneAnalysis : Option ToneAnalysis
  idiomExplanations : Option (List IdiomExplanation)
  structureSuggestions : Option String
  deriving DecidableEq

/-- Parse each element of a JSON array (`z.array(itemSchema)`); a non-array
value is reported under the given key. -/
def parseItems {α : Type} (p : JsonValue → Except String α) :
    List JsonValue → Except String (List α)
  | [] => .ok []
  | x :: xs =>
    match p x, parseItems p xs with
    | .ok a, .ok rest => .ok (a :: rest)
    | .error e, _ => .error e
    | .ok _, .error e => .error e

/-- `z.array(itemSchema)` at a value: must be an array, elements parsed. -/
def parseArray {α : Type} (p : JsonValue → Except String α) (key : String) :
    JsonValue → Except String (List α)
  | .arr xs => parseItems p xs
  | _ => .error key

/-- An optional object field carrying a sub-schema: absent parses to `none`,
present values go through the sub-parser. -/
def optField {α : Type} (fields : List (String × JsonValue)) (key : String)
    (p : JsonValue → Except String α) : Except String (Option α) :=
  match jsonLookup fields key with
  | none => .ok none
  | some v => (p v).map some

/-- `VocabularyItemSchema.parse`: required `term` and `explanation` strings. -/
def parseVocabularyItem (j : JsonValue) : Except String VocabularyItem :=
  match j with
  | .obj fields =>
    match reqString fields "term", reqString fields "explanation" with
    | .ok t, .ok e => .ok ⟨t, e⟩
    | .error k, _ => .error k
    | .ok _, .error k => .error k
  | _ => .error "keyVocabulary"

/-- `ToneAnalysisSchema.parse`: required `detectedTone`, optional `suggestions`. -/
def parseToneAnalysis (j : JsonValue) : Except String ToneAnalysis :=
  match j with
  | .obj fields =>
    match reqString fields "detectedTone", optString fields "suggestions" with
    | .ok d, .ok s => .ok ⟨d, s⟩
    | .error k, _ => .error k
    | .ok _, .error k => .error k
  | _ => .error "toneAnalysis"

/-- `IdiomExplanationSchema.parse`: required `idiom`/`meaning`, optional `example`. -/
def parseIdiomExplanation (j : JsonValue) : Except String IdiomExplanation :=
  match j with
  | .obj fields =>
    match reqString fields "idiom", reqString fields "meaning",
        optString fields "example" with
    | .ok i, .ok m, .ok e => .ok ⟨i, m, e⟩
    | .error k, _, _ => .error k
    | .ok _, .error k, _ => .error k
    | .ok _, .ok _, .error k => .error k
  | _ => .error "idiomExplanations"

/-- `CorrectWritingOutputSchema.parse`: the schema-validation the pipeline
applies to every model response before trusting any field. -/
def parseCorrectWritingOutput (j : JsonValue) :
    Except String CorrectWritingOutput :=
  match j with
  | .obj fields =>
    match reqString fields "correctedText", optString fields "explanation",
        optField fields "keyVocabulary" (parseArray parseVocabularyItem "keyVocabulary"),
        optField fields "toneAnalysis" parseToneAnalysis,
        optField fields "idiomExplanations"
          (parseArray parseIdiomExplanation "idiomExplanations"),
        optString fields "structureSuggestions" with
    | .ok c, .ok e, .ok kv, .ok ta, .ok ie, .ok ss => .ok ⟨c, e, kv, ta, ie, ss⟩
    | .error k, _, _, _, _, _ => .error k
    | .ok _, .error k, _, _, _, _ => .error k
    | .ok _, .ok _, .error k, _, _, _ => .error k
    | .ok _, .ok _, .ok _, .error k, _, _ => .error k
    | .ok _, .ok _, .ok _, .ok _, .error k, _ => .error k
    | .ok _, .ok _, .ok _, .ok _, .ok _, .error k => .error k
  | _ => .error "output"

/-- One JSON object entry per present optional field (absent fields are
omitted from the serialized object, as a model response omits them). -/
def optEntry {α : Type} (key : String) (f : α → JsonValue) :
    Option α → List (String × JsonValue)
  | none => []
  | some a => [(key, f a)]

/-- Serialize a vocabulary item to the schema's JSON shape. -/
def serializeVocabularyItem (v : VocabularyItem) : JsonValue :=
  .obj [("term", .str v.term), ("explanation", .str v.explanation)]

/-- Serialize a tone analysis to the schema's JSON shape. -/
def serializeToneAnalysis (t : ToneAnalysis) : JsonValue :=
  .obj ([("detectedTone", .str t.detectedTone)] ++
    optEntry "suggestions" .str t.suggestions)

/-- Serialize an idiom explanation to the schema's JSON shape. -/
def serializeIdiomExplanation (i : IdiomExplanation) : JsonValue :=
  .obj ([("idiom", .str i.idiom), ("meaning", .str i.meaning)] ++
    optEntry "example" .str i.«example»)

/-- Serialize a correction-flow output record to the schema's JSON shape. -/
def serializeCorrectWritingOutput (o : CorrectWritingOutput) : JsonValue :=
  .obj ([("correctedText", .str o.correctedText)] ++
    optEntry "explanation" .str o.explanation ++
    optEntry "keyVocabulary" (fun l => .arr (l.map serializeVocabularyItem))
      o.keyVocabulary ++
    optEntry "toneAnalysis" serializeToneAnalysis o.toneAnalysis ++
    optEntry "idiomExplanations" (fun l => .arr (l.map serializeIdiomExplanation))
      o.idiomExplanations ++
    optEntry "structureSuggestions" .str o.structureSuggestions)

/-! ### Prompt rendering

`correctWritingPrompt` of src/public/src/ai/flows/correct-writing.ts
(lines 72-122).  The dotprompt template is Handlebars text; every
interpolation in it is a triple-stache `{{{field}}}`, i.e. raw insertion.
A `true`/`false` boolean renders as the words `true`/`false`; an
`undefined` field (absent optional input field) renders as the empty
string.  The template below is split into the literal segments between
the interpolation points, transcribed verbatim (apostrophes written as
`\x27` escapes). -/

/-- Handlebars raw rendering of an optional string field (`undefined` → ""). -/
def hbOptStr : Option String → String
  | none => ""
  | some s => s

/-- Handlebars rendering of a boolean. -/
def hbBool : Bool → String
  | true => "true"
  | false => "false"

/-- Handlebars raw rendering of an optional boolean field (`undefined` → ""). -/
def hbOptBool : Option Bool → String
  | none => ""
  | some b => hbBool b

/-- Template text: the numbered instruction header, up to (excluding) the
sentence naming the language. -/
def cwHeader : String := "You are a highly configurable writing assistant and comprehensive language learning helper. Your task is to correct the provided text and offer detailed linguistic feedback based on the user\x27s specified settings.\nAlways respond with the corrected text. Additionally, provide the following based on user settings:\n\n1.  **Explanation of Corrections**:\n    *   Provide concise explanations for significant changes (grammar, spelling, punctuation, style).\n    *   For each, include a brief example sentence demonstrating correct usage or contrasting incorrect with correct usage, directly relevant to the user\x27s text.\n\n2.  **Key Vocabulary (if text is corrected)**:\n    *   Identify 3-5 key vocabulary words/phrases from the *corrected* text.\n    *   Focus on terms that were corrected, are good examples of proper usage, or useful for language learners.\n    *   For each term, provide a brief definition or an illustrative example sentence.\n\n3.  **Tone and Formality Analysis (if \x27analyzeTone\x27 is true)**:\n    *   Describe the detectedTone of the original text (e.g., \"informal and conversational\", \"formal and academic\", \"neutral\").\n    *   If \x27flagStyle\x27 is true or correctionLevel is \x27standard\x27 or \x27strict\x27, provide suggestions for improving or altering the tone/formality if it seems inappropriate or could be enhanced for clarity or impact.\n\n4.  **Idiom and Common Phrase Explanations (if \x27explainIdioms\x27 is true)**:\n    *   Identify any idioms or common colloquial phrases in the original text (whether used correctly or misused and then corrected).\n    *   For each identified idiom, provide its meaning and an example sentence showing its correct usage (preferably a new example).\n\n5.  **Sentence Structure Variation Suggestions (if \x27suggestStructureVariations\x27 is true)**:\n    *   Provide general structureSuggestions for improving sentence variety, flow, and readability.\n    *   If specific repetitive structures or awkward phrasing are noticed (even if grammatically correct), point them out and suggest general ways to vary them. This is especially relevant if \x27flagStyle\x27 is true.\n\n"

/-- Template text: the three correction level glosses and the Focus Areas
introduction, between `{{{correctionLevel}}}` and the Correct Grammar label. -/
def cwLevelGloss : String := "\n  - \x27gentle\x27: Essential corrections for understanding. Lenient on minor style.\n  - \x27standard\x27: Balanced corrections for grammar, spelling, punctuation, clarity. Improve readability.\n  - \x27strict\x27: Comprehensive corrections for all errors. Aim for formal/precise language.\n\nFocus Areas (true means correct/analyze this aspect, false means ignore unless critical):\n"

/-- Template text: the parenthetical after `{{{flagStyle}}}`. -/
def cwStyleGloss : String := " (If true, suggest improvements to style, tone, word choice. If false, focus on correctness.)"

/-- Template text after `{{{text}}}`: the closing JSON-format instruction. -/
def cwFooter : String := "\n\nProvide your response strictly in the JSON format defined by the output schema. Ensure all requested optional fields are included if the corresponding settings are enabled and relevant information is found. If a feature is enabled but no relevant items are found (e.g., no idioms in text when \x27explainIdioms\x27 is true), omit that field or provide an empty array/object as appropriate according to the schema.\n"

/-- `renderPrompt` of the correction flow: the instruction text
`correctWritingPrompt` sends to the model, as a pure function of the
parsed input record.  The template is written as the concatenation, in
source order, of its literal pieces and the ten interpolated fields; the
field labels are kept as separate literals so that theorems can name the
exact line a toggle is announced on. -/
def renderCorrectWritingPrompt (i : CorrectWritingInput) : String :=
  cwHeader ++
  "The user\x27s text is in " ++ i.language ++ "." ++
  "\n\nCorrection Settings:\n" ++
  "- Correction Level: " ++ hbOptStr i.correctionLevel ++
  cwLevelGloss ++
  "- Correct Grammar: " ++ hbOptBool i.flagGrammar ++
  "\n- Correct Spelling: " ++ hbOptBool i.flagSpelling ++
  "\n- Correct Punctuation: " ++ hbOptBool i.flagPunctuation ++
  "\n- Improve Style: " ++ hbOptBool i.flagStyle ++
  cwStyleGloss ++
  "\n- Analyze Tone: " ++ hbOptBool i.analyzeTone ++
  "\n- Explain Idioms: " ++ hbOptBool i.explainIdioms ++
  "\n- Suggest Structure Variations: " ++ hbOptBool i.suggestStructureVariations ++
  "\n\nOriginal Text:\n" ++ i.text ++
  cwFooter

/-! ### Summarize flow

`summarize-content.ts` (src/unnamed/part_002, final section): input
`{text: string, language?: string}`, output `{summary: string}`.  The
template of `summarizeContentPrompt` interpolates only `{{text}}` — a
double-stache, so Handlebars HTML-escapes the inserted value.  The
`language` input field does not occur in the template. -/

/-- The parsed summarize-flow input record (`SummarizeContentInputSchema`). -/
structure SummarizeContentInput where
  text : String
  language : Option String
  deriving DecidableEq

/-- The parsed summarize-flow output record (`SummarizeContentOutputSchema`). -/
structure SummarizeContentOutput where
  summary : String
  deriving DecidableEq

/-- All field issues raised by `SummarizeContentInputSchema` on an object. -/
def summarizeContentInputIssues (fields : List (String × JsonValue)) : List String :=
  errList (reqString fields "text") ++ errList (optString fields "language")

/-- `SummarizeContentInputSchema.parse`. -/
def parseSummarizeContentInput (j : JsonValue) :
    Except (List String) SummarizeContentInput :=
  match j with
  | .obj fields =>
    if summarizeContentInputIssues fields = [] then
      .ok {
        text := okOr "" (reqString fields "text")
        language := okOr none (optString fields "language")
      }
    else .error (summarizeContentInputIssues fields)
  | _ => .error ["input"]

/-- `SummarizeContentOutputSchema.parse`: required `summary` string. -/
def parseSummarizeContentOutput (j : JsonValue) :
    Except String SummarizeContentOutput :=
  match j with
  | .obj fields =>
    match reqString fields "summary" with
    | .ok s => .ok ⟨s⟩
    | .error k => .error k
  | _ => .error "output"

/-- Does the `summary` field of a JSON object conform to `SummarizeContentOutputSchema`? -/
def summarizeContentOutputConforms (j : JsonValue) : Bool :=
  match j with
  | .obj fields =>
    match jsonLookup fields "summary" with
    | some (.str _) => true
    | _ => false
  | _ => false

/-- Handlebars `escapeExpression`, applied by a double-stache `{{text}}`:
the characters `&`, `<`, `>`, `"`, the apostrophe, the backtick and `=`
are replaced by their HTML entities (codepoints compared numerically). -/
def hbEscapeChar (c : Char) : String :=
  if c.toNat = 38 then "&amp;"
  else if c.toNat = 60 then "&lt;"
  else if c.toNat = 62 then "&gt;"
  else if c.toNat = 34 then "&quot;"
  else if c.toNat = 39 then "&#x27;"
  else if c.toNat = 96 then "&#x60;"
  else if c.toNat = 61 then "&#x3D;"
  else c.toString

/-- Handlebars HTML escaping of a whole string. -/
def hbEscape (s : String) : String := String.join (s.data.map hbEscapeChar)

/-- Template text before `{{text}}` in `summarizeContentPrompt`. -/
def sumSeg1 : String := "You are an expert summarizer who can create concise and accurate summaries of text content in any language.\n\n  Summarize the following text in the language it is written in:\n\n  "

/-- Template text after `{{text}}` in `summarizeContentPrompt`. -/
def sumSeg2 : String := "\n  "

/-- `renderPrompt` of the summarize flow: the instruction text of
`summarizeContentPrompt`.  Only the `text` field is interpolated. -/
def renderSummarizeContentPrompt (i : SummarizeContentInput) : String :=
  sumSeg1 ++ hbEscape i.text ++ sumSeg2

/-! ### Translate flow -/

/-- Modelled from the spec: src/ai/flows/translate-content.ts is imported by
src/unnamed/part_001 and called from CorrectionInterface.tsx but its source
is not in the repository snapshot.  Section 3 of the spec gives
`TranslationRequest → {text, targetLanguage}`. -/
structure TranslateContentInput where
  text : String
  targetLanguage : String
  deriving DecidableEq

/-- Modelled from the spec: `TranslationResult → {translatedText}`
(spec section 3); the translate flow source file is not in the snapshot. -/
structure TranslateContentOutput where
  translatedText : String
  deriving DecidableEq

/-- Modelled from the spec: the translate flow's input validation —
`text` and `targetLanguage` are required strings, mirroring the other
flows' required-string treatment. -/
def translateContentInputIssues (fields : List (String × JsonValue)) : List String :=
  errList (reqString fields "text") ++ errList (reqString fields "targetLanguage")

/-- Modelled from the spec: `parse` of the translate flow's input schema. -/
def parseTranslateContentInput (j : JsonValue) :
    Except (List String) TranslateContentInput :=
  match j with
  | .obj fields =>
    if translateContentInputIssues fields = [] then
      .ok {
        text := okOr "" (reqString fields "text")
        targetLanguage := okOr "" (reqString fields "targetLanguage")
      }
    else .error (translateContentInputIssues fields)
  | _ => .error ["input"]

/-- Modelled from the spec: `parse` of the translate flow's output schema —
a required `translatedText` string. -/
def parseTranslateContentOutput (j : JsonValue) :
    Except String TranslateContentOutput :=
  match j with
  | .obj fields =>
    match reqString fields "translatedText" with
    | .ok s => .ok ⟨s⟩
    | .error k => .error k
  | _ => .error "output"

/-- Does the `translatedText` field of a JSON object conform to the
translate flow's output schema? -/
def translateContentOutputConforms (j : JsonValue) : Bool :=
  match j with
  | .obj fields =>
    match jsonLookup fields "translatedText" with
    | some (.str _) => true
    | _ => false
  | _ => false

/-- Modelled from the spec: the translate flow's `renderPrompt` — a
deterministic template interpolation of both input fields; the concrete
template text is unknown because the flow's source file is missing. -/
def renderTranslateContentPrompt (i : TranslateContentInput) : String :=
  "Translate the following text to " ++ i.targetLanguage ++ ":\n\n" ++ i.text

/-! ### Structural conformity to the correction output schema

An executable statement, written from the schema declaration
(src/public/src/ai/flows/correct-writing.ts lines 42-66), of what it means
for a raw JSON response to satisfy `CorrectWritingOutputSchema`:
`correctedText` present as a string, each optional field either absent or
of its declared shape. -/

/-- Is the value at a key a present string? -/
def keyIsStr (fields : List (String × JsonValue)) (key : String) : Bool :=
  match jsonLookup fields key with
  | some (.str _) => true
  | _ => false

/-- Is the value at a key absent, or a string? -/
def keyIsOptStr (fields : List (String × JsonValue)) (key : String) : Bool :=
  match jsonLookup fields key with
  | none => true
  | some (.str _) => true
  | _ => false

/-- Is the value at a key absent, or of the given shape? -/
def keyIsOpt (fields : List (String × JsonValue)) (key : String)
    (shape : JsonValue → Bool) : Bool :=
  match jsonLookup fields key with
  | none => true
  | some v => shape v

/-- Is a value an array whose elements all have the given shape? -/
def isArrayOf (shape : JsonValue → Bool) : JsonValue → Bool
  | .arr xs => xs.all shape
  | _ => false

/-- Conformity of one `keyVocabulary` entry to `VocabularyItemSchema`. -/
def vocabularyItemConforms : JsonValue → Bool
  | .obj fields => keyIsStr fields "term" && keyIsStr fields "explanation"
  | _ => false

/-- Conformity of a `toneAnalysis` value to `ToneAnalysisSchema`. -/
def toneAnalysisConforms : JsonValue → Bool
  | .obj fields => keyIsStr fields "detectedTone" && keyIsOptStr fields "suggestions"
  | _ => false

/-- Conformity of one `idiomExplanations` entry to `IdiomExplanationSchema`. -/
def idiomExplanationConforms : JsonValue → Bool
  | .obj fields =>
    keyIsStr fields "idiom" && keyIsStr fields "meaning" && keyIsOptStr fields "example"
  | _ => false

/-- Conformity of a raw model response to `CorrectWritingOutputSchema`. -/
def correctWritingOutputConforms : JsonValue → Bool
  | .obj fields =>
    keyIsStr fields "correctedText" &&
    keyIsOptStr fields "explanation" &&
    keyIsOpt fields "keyVocabulary" (isArrayOf vocabularyItemConforms) &&
    keyIsOpt fields "toneAnalysis" toneAnalysisConforms &&
    keyIsOpt fields "idiomExplanations" (isArrayOf idiomExplanationConforms) &&
    keyIsOptStr fields "structureSuggestions"
  | _ => false

/-! ### The request pipeline

Modelled from the spec (section 4.1): the Genkit machinery that executes a
flow — validate the input record, render the prompt, issue a single request
to the external generation service, validate the response — is library
code, not part of the repository sources; only the schemas, the prompt
templates and the flow bodies are.  `runPipeline` is the spec's `execute`,
instantiated below with the source-embedded schemas and templates.  The
stub service's scripted behaviour is a `ServiceOutcome`, and the trace
records how many outbound calls were made. -/

/-- The spec's `PipelineError` taxonomy (section 7). -/
inductive PipelineError where
  | invalidInput (fieldErrors : List String)
  | upstreamFailure (cause : String)
  | invalidOutput (reason : String)
  | emptyResponse
  deriving DecidableEq

/-- One scripted behaviour of the stub external generation service. -/
inductive ServiceOutcome where
  | providerError (cause : String)
  | noObject
  | payload (response : JsonValue)

/-- The outcome of one `execute` invocation together with the number of
calls made to the external generation service. -/
structure ExecTrace (α : Type) where
  result : Except PipelineError α
  serviceCalls : Nat

/-- Modelled from the spec: `execute(flow, input)` — fail fast on invalid
input with zero service calls; otherwise render the prompt, make exactly
one service call, and classify its outcome (upstream failure, empty
response, schema-invalid payload, or validated success). -/
def runPipeline {I O : Type} (parseIn : JsonValue → Except (List String) I)
    (render : I → String) (parseOut : JsonValue → Except String O)
    (rawInput : JsonValue) (svc : ServiceOutcome) : ExecTrace O :=
  match parseIn rawInput with
  | .error fieldErrors => ⟨.error (.invalidInput fieldErrors), 0⟩
  | .ok input =>
    let _prompt := render input
    match svc with
    | .providerError cause => ⟨.error (.upstreamFailure cause), 1⟩
    | .noObject => ⟨.error .emptyResponse, 1⟩
    | .payload response =>
      match parseOut response with
      | .error reason => ⟨.error (.invalidOutput reason), 1⟩
      | .ok out => ⟨.ok out, 1⟩

/-- The pipeline executing the correction flow (schemas and template from
src/public/src/ai/flows/correct-writing.ts). -/
def executeCorrectWriting : JsonValue → ServiceOutcome → ExecTrace CorrectWritingOutput :=
  runPipeline parseCorrectWritingInput renderCorrectWritingPrompt parseCorrectWritingOutput

/-- The pipeline executing the summarize flow (schemas and template from
src/unnamed/part_002). -/
def executeSummarizeContent : JsonValue → ServiceOutcome → ExecTrace SummarizeContentOutput :=
  runPipeline parseSummarizeContentInput renderSummarizeContentPrompt parseSummarizeContentOutput

/-- The pipeline executing the translate flow (schemas modelled from the
spec, the flow source being absent from the snapshot). -/
def executeTranslateContent : JsonValue → ServiceOutcome → ExecTrace TranslateContentOutput :=
  runPipeline parseTranslateContentInput renderTranslateContentPrompt parseTranslateContentOutput

/-! ### Flow bodies as written in the sources

`correctWritingFlow` (src/public/src/ai/flows/correct-writing.ts lines
124-140) receives the prompt's validated output, which Genkit types as
nullable; on a null output it THROWS
`new Error("AI did not return a valid output.")` rather than returning a
classified error value.  A thrown exception is represented by the
`FlowFailure.thrown` constructor, distinct from every returned value. -/

/-- An exception escaping a flow, carrying the `Error` message. -/
inductive FlowFailure where
  | thrown (message : String)
  deriving DecidableEq

/-- The body of `correctWritingFlow`: return the prompt output unchanged,
or throw when it is null. -/
def correctWritingFlowBody (output : Option CorrectWritingOutput) :
    Except FlowFailure CorrectWritingOutput :=
  match output with
  | none => .error (.thrown "AI did not return a valid output.")
  | some o => .ok o

/-- The body of `summarizeContentFlow` (src/unnamed/part_002 lines 186-196):
`return output!` — the TypeScript non-null assertion performs no runtime
check, so a null output is passed through unchanged. -/
def summarizeContentFlowBody (output : Option SummarizeContentOutput) :
    Option SummarizeContentOutput :=
  output

/-! ### Flow registry

Modelled from the spec (section 4.2): the registry owning the flow
definitions lives in the Genkit library, not in the repository sources;
src/unnamed/part_001 populates it once at startup by importing the three
flow modules.  `register` fails on a duplicate name and never overwrites. -/

/-- A flow definition: a name paired with the flow's input and output
validators (spec section 3, `FlowDefinition`). -/
structure FlowDefinition where
  name : String
  validInput : JsonValue → Bool
  validOutput : JsonValue → Bool

/-- The registered correction flow (names as passed to `ai.defineFlow`). -/
def correctWritingFlowDef : FlowDefinition :=
  ⟨"correctWritingFlow", fun j => (parseCorrectWritingInput j).isOk,
    fun j => (parseCorrectWritingOutput j).isOk⟩

/-- The registered summarize flow. -/
def summarizeContentFlowDef : FlowDefinition :=
  ⟨"summarizeContentFlow", fun j => (parseSummarizeContentInput j).isOk,
    fun j => (parseSummarizeContentOutput j).isOk⟩

/-- Modelled from the spec: the registered translate flow (its source file
is absent; the name follows the repository's `<verb>ContentFlow` scheme). -/
def translateContentFlowDef : FlowDefinition :=
  ⟨"translateContentFlow", fun j => (parseTranslateContentInput j).isOk,
    fun j => (parseTranslateContentOutput j).isOk⟩

/-- Failure of `register`. -/
inductive RegisterError where
  | duplicateName (name : String)
  deriving DecidableEq

/-- Modelled from the spec: `register(definition)` — fails if a definition
with the same name already exists (no silent overwrite), otherwise appends. -/
def register (registry : List FlowDefinition) (d : FlowDefinition) :
    Except RegisterError (List FlowDefinition) :=
  if registry.any (fun e => e.name == d.name) then
    .error (.duplicateName d.name)
  else
    .ok (registry ++ [d])

/-- Modelled from the spec: `get(name)` — the first (hence, under the
registry invariant, the only) definition with the given name. -/
def lookupFlow (registry : List FlowDefinition) (name : String) :
    Option FlowDefinition :=
  registry.find? (fun e => e.name == name)

/-! ### The CorrectionInterface component state

src/src/components/polyglot-pal/CorrectionInterface.tsx.  The component's
React state and its four state-changing handlers (`onSubmit`,
`handleSettingsChange`, `handleModeChange`, `handleReset`) are embedded as
a step function over an explicit state record.  An `onSubmit` step carries
the awaited outcome of whichever flow call it would make (a thrown error
is the `.error` case, caught by the handler's try/catch and surfaced as a
toast without touching the result state). -/

/-- The `PolyglotSettings` record of SettingsPanel.tsx, held in component
state. -/
structure PolyglotSettings where
  correctionLevel : String
  flagGrammar : Bool
  flagSpelling : Bool
  flagPunctuation : Bool
  flagStyle : Bool
  analyzeTone : Bool
  explainIdioms : Bool
  suggestStructureVariations : Bool
  deriving DecidableEq

/-- `defaultSettings` of CorrectionInterface.tsx (lines 30-39). -/
def defaultSettings : PolyglotSettings :=
  ⟨"standard", true, true, true, false, true, true, true⟩

/-- The two tab modes. -/
inductive Mode where
  | correct
  | translate
  deriving DecidableEq

/-- The values of the react-hook-form form (`formSchema`). -/
structure CorrectionFormValues where
  text : String
  inputLanguage : String
  deriving DecidableEq

/-- The issues raised by the UI `formSchema`
(CorrectionInterface.tsx lines 23-26): `z.string().min(1, message)` on
both fields — unlike the flow's own input schema, the FORM rejects empty
strings, with these messages. -/
def formSchemaIssues (text inputLanguage : String) : List String :=
  (if 1 ≤ text.length then [] else ["Please enter some text."]) ++
  (if 1 ≤ inputLanguage.length then []
   else ["Please select the input language for correction."])

/-- `formSchema.parse`: the client-side validation `react-hook-form`
applies before `onSubmit` is ever invoked. -/
def parseCorrectionForm (text inputLanguage : String) :
    Except (List String) CorrectionFormValues :=
  if formSchemaIssues text inputLanguage = [] then .ok ⟨text, inputLanguage⟩
  else .error (formSchemaIssues text inputLanguage)

/-- The component's state hooks. -/
structure InterfaceState where
  isLoading : Bool
  correctionResult : Option CorrectWritingOutput
  translationResult : Option String
  settings : PolyglotSettings
  mode : Mode
  targetLanguage : String
  formValues : CorrectionFormValues

/-- The initial state (`useState` initialisers; the form defaults to
`{text: "", inputLanguage: "English"}` and `targetLanguage` to `"Spanish"`). -/
def initialInterfaceState : InterfaceState :=
  ⟨false, none, none, defaultSettings, .correct, "Spanish", ⟨"", "English"⟩⟩

/-- One user-driven state transition.  A `submit` carries the stubbed
outcomes of the two flow calls (`correctWriting` and `translateContent`);
the handler awaits only the one matching the current mode. -/
inductive UIEvent where
  | submit (data : CorrectionFormValues)
      (correctOutcome : Except String CorrectWritingOutput)
      (translateOutcome : Except String TranslateContentOutput)
  | settingsChange (newSettings : PolyglotSettings)
  | modeChange (newMode : Mode)
  | reset

/-- `buildCorrectionInput` — the `CorrectWritingInput` record built inside
`onSubmit` (lines 65-76) from the form data and the settings state.  Every
field is passed explicitly, so the zod defaults are never relied upon. -/
def buildCorrectionInput (data : CorrectionFormValues) (s : PolyglotSettings) :
    CorrectWritingInput :=
  ⟨data.text, data.inputLanguage, some s.correctionLevel, some s.flagGrammar,
    some s.flagSpelling, some s.flagPunctuation, some s.flagStyle,
    some s.analyzeTone, some s.explainIdioms, some s.suggestStructureVariations⟩

/-- The state transition function, mirroring the handlers line by line:
`onSubmit` first nulls both results and sets the loading flag, then
assigns only the result of the branch matching the mode (a caught error
leaves both null); `handleModeChange` and `handleReset` null both results;
`handleSettingsChange` only replaces the settings. -/
def uiStep (s : InterfaceState) : UIEvent → InterfaceState
  | .submit data correctOutcome translateOutcome =>
    let s1 : InterfaceState :=
      { s with isLoading := true, correctionResult := none, translationResult := none }
    match s1.mode with
    | .correct =>
      let _input := buildCorrectionInput data s1.settings
      match correctOutcome with
      | .ok result => { s1 with correctionResult := some result, isLoading := false }
      | .error _ => { s1 with isLoading := false }
    | .translate =>
      if s1.targetLanguage = "" then
        { s1 with isLoading := false }
      else
        let _input : TranslateContentInput := ⟨data.text, s1.targetLanguage⟩
        match translateOutcome with
        | .ok result =>
          { s1 with translationResult := some result.translatedText, isLoading := false }
        | .error _ => { s1 with isLoading := false }
  | .settingsChange newSettings => { s with settings := newSettings }
  | .modeChange newMode =>
    { s with mode := newMode, correctionResult := none, translationResult := none }
  | .reset =>
    { s with
      formValues := ⟨"", s.formValues.inputLanguage⟩
      correctionResult := none
      translationResult := none }

/-- The state reached after a sequence of user events. -/
def runUI (events : List UIEvent) : InterfaceState :=
  events.foldl uiStep initialInterfaceState

/-- At most one of the two result hooks is populated. -/
def resultExclusive (s : InterfaceState) : Prop :=
  s.correctionResult = none ∨ s.translationResult = none

/-- `needle` occurs verbatim somewhere inside `hay`. -/
def occursIn (needle hay : String) : Prop :=
  ∃ pre post, hay = pre ++ needle ++ post

/-! ### Parsing succeeds only on schema-conformant values -/

theorem keyIsStr_of_reqString {fields : List (String × JsonValue)} {key : String}
    {s : String} (h : reqString fields key = .ok s) : keyIsStr fields key = true := by
  unfold reqString at h
  unfold keyIsStr
  cases hl : jsonLookup fields key with
  | none => simp [hl] at h
  | some v => cases v <;> simp [hl] at h ⊢

theorem keyIsOptStr_of_optString {fields : List (String × JsonValue)} {key : String}
    {s : Option String} (h : optString fields key = .ok s) :
    keyIsOptStr fields key = true := by
  unfold optString at h
  unfold keyIsOptStr
  cases hl : jsonLookup fields key with
  | none => simp [hl]
  | some v => cases v <;> simp [hl] at h ⊢

theorem vocabularyItemConforms_of_parse {j : JsonValue} {v : VocabularyItem}
    (h : parseVocabularyItem j = .ok v) : vocabularyItemConforms j = true := by
  unfold parseVocabularyItem at h
  cases j with
  | obj fields =>
    simp only [vocabularyItemConforms, Bool.and_eq_true]
    cases ht : reqString fields "term" with
    | error k => simp [ht] at h
    | ok t =>
      cases he : reqString fields "explanation" with
      | error k => simp [ht, he] at h
      | ok e => exact ⟨keyIsStr_of_reqString ht, keyIsStr_of_reqString he⟩
  | null => simp at h
  | str s => simp at h
  | bool b => simp at h
  | num n => simp at h
  | arr xs => simp at h

theorem toneAnalysisConforms_of_parse {j : JsonValue} {t : ToneAnalysis}
    (h : parseToneAnalysis j = .ok t) : toneAnalysisConforms j = true := by
  unfold parseToneAnalysis at h
  cases j with
  | obj fields =>
    simp only [toneAnalysisConforms, Bool.and_eq_true]
    cases hd : reqString fields "detectedTone" with
    | error k => simp [hd] at h
    | ok d =>
      cases hs : optString fields "suggestions" with
      | error k => simp [hd, hs] at h
      | ok s => exact ⟨keyIsStr_of_reqString hd, keyIsOptStr_of_optString hs⟩
  | null => simp at h
  | str s => simp at h
  | bool b => simp at h
  | num n => simp at h
  | arr xs => simp at h

theorem idiomExplanationConforms_of_parse {j : JsonValue} {e : IdiomExplanation}
    (h : parseIdiomExplanation j = .ok e) : idiomExplanationConforms j = true := by
  unfold parseIdiomExplanation at h
  cases j with
  | obj fields =>
    simp only [idiomExplanationConforms, Bool.and_eq_true]
    cases hi : reqString fields "idiom" with
    | error k => simp [hi] at h
    | ok i =>
      cases hm : reqString fields "meaning" with
      | error k => simp [hi, hm] at h
      | ok m =>
        cases hx : optString fields "example" with
        | error k => simp [hi, hm, hx] at h
        | ok x =>
          exact ⟨⟨keyIsStr_of_reqString hi, keyIsStr_of_reqString hm⟩,
            keyIsOptStr_of_optString hx⟩
  | null => simp at h
  | str s => simp at h
  | bool b => simp at h
  | num n => simp at h
  | arr xs => simp at h

theorem all_of_parseItems {α : Type} {p : JsonValue → Except String α}
    {shape : JsonValue → Bool}
    (hp : ∀ j a, p j = .ok a → shape j = true) :
    ∀ {xs : List JsonValue} {l : List α}, parseItems p xs = .ok l →
      xs.all shape = true := by
  intro xs
  induction xs with
  | nil => intro l _; rfl
  | cons x rest ih =>
    intro l h
    unfold parseItems at h
    cases hx : p x with
    | error e => simp [hx] at h
    | ok a =>
      cases hr : parseItems p rest with
      | error e => simp [hx, hr] at h
      | ok as =>
        simp only [List.all_cons, Bool.and_eq_true]
        exact ⟨hp x a hx, ih hr⟩

theorem isArrayOf_of_parseArray {α : Type} {p : JsonValue → Except String α}
    {shape : JsonValue → Bool} {key : String}
    (hp : ∀ j a, p j = .ok a → shape j = true) :
    ∀ {j : JsonValue} {l : List α}, parseArray p key j = .ok l →
      isArrayOf shape j = true := by
  intro j l h
  cases j with
  | arr xs =>
    simp only [parseArray] at h
    show xs.all shape = true
    exact all_of_parseItems hp h
  | null => simp [parseArray] at h
  | str s => simp [parseArray] at h
  | bool b => simp [parseArray] at h
  | num n => simp [parseArray] at h
  | obj fields => simp [parseArray] at h

theorem keyIsOpt_of_optField {α : Type} {fields : List (String × JsonValue)}
    {key : String} {p : JsonValue → Except String α} {shape : JsonValue → Bool}
    {o : Option α} (hp : ∀ j a, p j = .ok a → shape j = true)
    (h : optField fields key p = .ok o) : keyIsOpt fields key shape = true := by
  unfold optField at h
  unfold keyIsOpt
  cases hl : jsonLookup fields key with
  | none => simp [hl]
  | some v =>
    simp only [hl] at h ⊢
    cases hv : p v with
    | error e => rw [hv] at h; simp [Except.map] at h
    | ok a => exact hp v a hv

/-- A model response the output validation accepts is structurally
conformant to `CorrectWritingOutputSchema`. -/
theorem correctWritingOutputConforms_of_parse {j : JsonValue}
    {o : CorrectWritingOutput} (h : parseCorrectWritingOutput j = .ok o) :
    correctWritingOutputConforms j = true := by
  unfold parseCorrectWritingOutput at h
  cases j with
  | obj fields =>
    simp only [correctWritingOutputConforms, Bool.and_eq_true]
    cases h1 : reqString fields "correctedText" with
    | error k => simp [h1] at h
    | ok c =>
      cases h2 : optString fields "explanation" with
      | error k => simp [h1, h2] at h
      | ok e =>
        cases h3 : optField fields "keyVocabulary"
            (parseArray parseVocabularyItem "keyVocabulary") with
        | error k => simp [h1, h2, h3] at h
        | ok kv =>
          cases h4 : optField fields "toneAnalysis" parseToneAnalysis with
          | error k => simp [h1, h2, h3, h4] at h
          | ok ta =>
            cases h5 : optField fields "idiomExplanations"
                (parseArray parseIdiomExplanation "idiomExplanations") with
            | error k => simp [h1, h2, h3, h4, h5] at h
            | ok ie =>
              cases h6 : optString fields "structureSuggestions" with
              | error k => simp [h1, h2, h3, h4, h5, h6] at h
              | ok ss =>
                refine ⟨⟨⟨⟨⟨keyIsStr_of_reqString h1, keyIsOptStr_of_optString h2⟩,
                  keyIsOpt_of_optField (fun j a hj =>
                    isArrayOf_of_parseArray
                      (fun j a hj => vocabularyItemConforms_of_parse hj) hj) h3⟩,
                  keyIsOpt_of_optField
                    (fun j a hj => toneAnalysisConforms_of_parse hj) h4⟩,
                  keyIsOpt_of_optField (fun j a hj =>
                    isArrayOf_of_parseArray
                      (fun j a hj => idiomExplanationConforms_of_parse hj) hj) h5⟩,
                  keyIsOptStr_of_optString h6⟩
  | null => simp at h
  | str s => simp at h
  | bool b => simp at h
  | num n => simp at h
  | arr xs => simp at h

/-! ### Round-trip: parsing a serialized output record restores it -/

theorem parseVocabularyItem_serialize (v : VocabularyItem) :
    parseVocabularyItem (serializeVocabularyItem v) = .ok v := rfl

theorem parseToneAnalysis_serialize (t : ToneAnalysis) :
    parseToneAnalysis (serializeToneAnalysis t) = .ok t := by
  obtain ⟨d, s⟩ := t
  cases s <;> rfl

theorem parseIdiomExplanation_serialize (e : IdiomExplanation) :
    parseIdiomExplanation (serializeIdiomExplanation e) = .ok e := by
  obtain ⟨i, m, x⟩ := e
  cases x <;> rfl

theorem parseItems_roundtrip {α : Type} {p : JsonValue → Except String α}
    {f : α → JsonValue} (hp : ∀ a, p (f a) = .ok a) :
    ∀ l : List α, parseItems p (l.map f) = .ok l := by
  intro l
  induction l with
  | nil => rfl
  | cons a rest ih => simp [parseItems, hp a, ih]

/-- Parsing the serialization of any output record restores the record
field for field. -/
theorem parseCorrectWritingOutput_serialize (o : CorrectWritingOutput) :
    parseCorrectWritingOutput (serializeCorrectWritingOutput o) = .ok o := by
  obtain ⟨c, e, kv, ta, ie, ss⟩ := o
  cases e <;> cases kv <;> cases ta <;> cases ie <;> cases ss <;>
    simp [parseCorrectWritingOutput, serializeCorrectWritingOutput, optEntry,
      jsonLookup, reqString, optString, optField, parseArray, Except.map,
      parseItems_roundtrip parseVocabularyItem_serialize,
      parseItems_roundtrip parseIdiomExplanation_serialize,
      parseToneAnalysis_serialize]

/-! ### Pipeline execution lemmas -/

theorem runPipeline_ok {I O : Type} {parseIn : JsonValue → Except (List String) I}
    {render : I → String} {parseOut : JsonValue → Except String O}
    {raw : JsonValue} {svc : ServiceOutcome} {v : O} {n : Nat}
    (h : runPipeline parseIn render parseOut raw svc = ⟨.ok v, n⟩) :
    ∃ j, svc = .payload j ∧ parseOut j = .ok v ∧ n = 1 := by
  unfold runPipeline at h
  cases hin : parseIn raw with
  | error errs => rw [hin] at h; simp at h
  | ok input =>
    rw [hin] at h
    cases svc with
    | providerError cause => simp at h
    | noObject => simp at h
    | payload j =>
      cases hout : parseOut j with
      | error reason => simp [hout] at h
      | ok out =>
        simp only [hout, ExecTrace.mk.injEq, Except.ok.injEq] at h
        exact ⟨j, rfl, by rw [hout, h.1], h.2.symm⟩

theorem runPipeline_calls_of_ok {I O : Type}
    {parseIn : JsonValue → Except (List String) I} {render : I → String}
    {parseOut : JsonValue → Except String O} {raw : JsonValue} {input : I}
    (svc : ServiceOutcome) (h : parseIn raw = .ok input) :
    (runPipeline parseIn render parseOut raw svc).serviceCalls = 1 := by
  unfold runPipeline
  rw [h]
  cases svc with
  | providerError cause => rfl
  | noObject => rfl
  | payload j => cases hout : parseOut j <;> simp [hout]

theorem runPipeline_of_error {I O : Type}
    {parseIn : JsonValue → Except (List String) I} {render : I → String}
    {parseOut : JsonValue → Except String O} {raw : JsonValue} {errs : List String}
    (svc : ServiceOutcome) (h : parseIn raw = .error errs) :
    runPipeline parseIn render parseOut raw svc =
      ⟨.error (.invalidInput errs), 0⟩ := by
  unfold runPipeline
  rw [h]

theorem translateContentOutputConforms_of_parse {j : JsonValue}
    {v : TranslateContentOutput} (h : parseTranslateContentOutput j = .ok v) :
    translateContentOutputConforms j = true := by
  unfold parseTranslateContentOutput at h
  unfold translateContentOutputConforms
  cases j with
  | obj fields =>
    cases hr : reqString fields "translatedText" with
    | error k => simp [hr] at h
    | ok s =>
      unfold reqString at hr
      cases hl : jsonLookup fields "translatedText" with
      | none => simp [hl] at hr
      | some v => cases v <;> simp [hl] at hr ⊢
  | null => simp at h
  | str s => simp at h
  | bool b => simp at h
  | num n => simp at h
  | arr xs => simp at h

theorem summarizeContentOutputConforms_of_parse {j : JsonValue}
    {v : SummarizeContentOutput} (h : parseSummarizeContentOutput j = .ok v) :
    summarizeContentOutputConforms j = true := by
  unfold parseSummarizeContentOutput at h
  unfold summarizeContentOutputConforms
  cases j with
  | obj fields =>
    cases hr : reqString fields "summary" with
    | error k => simp [hr] at h
    | ok s =>
      unfold reqString at hr
      cases hl : jsonLookup fields "summary" with
      | none => simp [hl] at hr
      | some v => cases v <;> simp [hl] at hr ⊢
  | null => simp at h
  | str s => simp at h
  | bool b => simp at h
  | num n => simp at h
  | arr xs => simp at h

theorem parseCorrectWritingOutput_missing_correctedText
    {fields : List (String × JsonValue)}
    (h : jsonLookup fields "correctedText" = none) :
    parseCorrectWritingOutput (.obj fields) = .error "correctedText" := by
  have hr : reqString fields "correctedText" = .error "correctedText" := by
    unfold reqString; rw [h]
  simp [parseCorrectWritingOutput, hr]

/-- C1.  Every success value of a flow execution comes from a service
payload that structurally satisfies the flow's declared output schema; a
response missing the required `correctedText` field makes the correction
flow fail with `InvalidOutput` naming that field — it is never replaced
by a defaulted success value. -/
theorem flows_success_satisfies_output_schema :
    (∀ raw svc v n, executeCorrectWriting raw svc = ⟨.ok v, n⟩ →
      ∃ j, svc = .payload j ∧ correctWritingOutputConforms j = true) ∧
    (∀ raw svc v n, executeTranslateContent raw svc = ⟨.ok v, n⟩ →
      ∃ j, svc = .payload j ∧ translateContentOutputConforms j = true) ∧
    (∀ raw svc v n, executeSummarizeContent raw svc = ⟨.ok v, n⟩ →
      ∃ j, svc = .payload j ∧ summarizeContentOutputConforms j = true) ∧
    (∀ raw input fields, parseCorrectWritingInput raw = .ok input →
      jsonLookup fields "correctedText" = none →
      executeCorrectWriting raw (.payload (.obj fields)) =
        ⟨.error (.invalidOutput "correctedText"), 1⟩) := by
  refine ⟨?_, ?_, ?_, ?_⟩
  · intro raw svc v n h
    obtain ⟨j, hsvc, hout, _⟩ := runPipeline_ok h
    exact ⟨j, hsvc, correctWritingOutputConforms_of_parse hout⟩
  · intro raw svc v n h
    obtain ⟨j, hsvc, hout, _⟩ := runPipeline_ok h
    exact ⟨j, hsvc, translateContentOutputConforms_of_parse hout⟩
  · intro raw svc v n h
    obtain ⟨j, hsvc, hout, _⟩ := runPipeline_ok h
    exact ⟨j, hsvc, summarizeContentOutputConforms_of_parse hout⟩
  · intro raw input fields hin hmiss
    unfold executeCorrectWriting runPipeline
    rw [hin]
    simp [parseCorrectWritingOutput_missing_correctedText hmiss]

/-- Witness for C1: a concrete success whose payload is schema-conformant,
and the concrete missing-`correctedText` failure. -/
theorem flows_success_satisfies_output_schema_witness :
    (∃ j, ServiceOutcome.payload (.obj [("correctedText", JsonValue.str "Hi.")]) =
        .payload j ∧ correctWritingOutputConforms j = true) ∧
    executeCorrectWriting (.obj [("text", .str "hi"), ("language", .str "English")])
        (.payload (.obj [("explanation", .str "no text")])) =
      ⟨.error (.invalidOutput "correctedText"), 1⟩ :=
  ⟨flows_success_satisfies_output_schema.1
      (.obj [("text", .str "hi"), ("language", .str "English")])
      (.payload (.obj [("correctedText", JsonValue.str "Hi.")]))
      ⟨"Hi.", none, none, none, none, none⟩ 1 rfl,
    flows_success_satisfies_output_schema.2.2.2
      (.obj [("text", .str "hi"), ("language", .str "English")])
      ⟨"hi", "English", none, none, none, none, none, none, none, none⟩
      [("explanation", .str "no text")] rfl rfl⟩

/-! ### Input validation failures (claim C2) -/

theorem reqString_of_missing {fields : List (String × JsonValue)} {key : String}
    (h : jsonLookup fields key = none) : reqString fields key = .error key := by
  unfold reqString; rw [h]

theorem parseCorrectWritingInput_of_issues {fields : List (String × JsonValue)}
    (hne : correctWritingInputIssues fields ≠ []) :
    parseCorrectWritingInput (.obj fields) =
      .error (correctWritingInputIssues fields) := by
  simp [parseCorrectWritingInput, hne]

/-- C2 counterexample: the input `{text: "", language: "English"}` is NOT
rejected by the correction flow — the flow's `z.string()` imposes no
minimum length, so the empty text passes input validation, one service
call is made, and a stubbed conformant response yields success. -/
theorem correctWriting_emptyText_not_rejected :
    executeCorrectWriting (.obj [("text", .str ""), ("language", .str "English")])
        (.payload (.obj [("correctedText", .str "ok")])) =
      ⟨.ok ⟨"ok", none, none, none, none, none⟩, 1⟩ := rfl

/-- C2 (amended).  An input record missing `text` or `language` is rejected
as `InvalidInput` citing the missing field, with zero service calls; the
UI form schema (not the flow schema) is what rejects empty text, with its
inline message; and any record carrying both fields as strings — the empty
string included — always results in exactly one service call. -/
theorem correctWriting_invalid_input_no_service_call :
    (∀ fields svc, jsonLookup fields "text" = none →
      executeCorrectWriting (.obj fields) svc =
          ⟨.error (.invalidInput (correctWritingInputIssues fields)), 0⟩ ∧
        "text" ∈ correctWritingInputIssues fields) ∧
    (∀ fields svc, jsonLookup fields "language" = none →
      executeCorrectWriting (.obj fields) svc =
          ⟨.error (.invalidInput (correctWritingInputIssues fields)), 0⟩ ∧
        "language" ∈ correctWritingInputIssues fields) ∧
    parseCorrectionForm "" "English" = .error ["Please enter some text."] ∧
    (∀ t l svc,
      (executeCorrectWriting (.obj [("text", .str t), ("language", .str l)])
        svc).serviceCalls = 1) := by
  refine ⟨?_, ?_, by rfl, ?_⟩
  · intro fields svc h
    have hmem : "text" ∈ correctWritingInputIssues fields := by
      unfold correctWritingInputIssues
      simp [reqString_of_missing h, errList]
    exact ⟨runPipeline_of_error svc
      (parseCorrectWritingInput_of_issues (List.ne_nil_of_mem hmem)), hmem⟩
  · intro fields svc h
    have hmem : "language" ∈ correctWritingInputIssues fields := by
      unfold correctWritingInputIssues
      simp [reqString_of_missing h, errList]
    exact ⟨runPipeline_of_error svc
      (parseCorrectWritingInput_of_issues (List.ne_nil_of_mem hmem)), hmem⟩
  · intro t l svc
    exact runPipeline_calls_of_ok svc rfl

/-- Witness for C2 (amended): the missing-`text` and missing-`language`
rejections at concrete records. -/
theorem correctWriting_invalid_input_no_service_call_witness :
    (executeCorrectWriting (.obj [("language", JsonValue.str "English")]) .noObject =
        ⟨.error (.invalidInput
          (correctWritingInputIssues [("language", JsonValue.str "English")])), 0⟩ ∧
      "text" ∈ correctWritingInputIssues [("language", JsonValue.str "English")]) ∧
    (executeCorrectWriting (.obj [("text", JsonValue.str "hi")]) .noObject =
        ⟨.error (.invalidInput
          (correctWritingInputIssues [("text", JsonValue.str "hi")])), 0⟩ ∧
      "language" ∈ correctWritingInputIssues [("text", JsonValue.str "hi")]) :=
  ⟨correctWriting_invalid_input_no_service_call.1
      [("language", JsonValue.str "English")] .noObject rfl,
    correctWriting_invalid_input_no_service_call.2.1
      [("text", JsonValue.str "hi")] .noObject rfl⟩

/-! ### Flow bodies and failure surfacing (claim C3) -/

/-- C3 counterexample: on a contentless provider response (the prompt
returned no object), `correctWritingFlow` does not return a classified
error value — it throws `Error("AI did not return a valid output.")`,
which escapes the flow boundary to the caller's catch block. -/
theorem correctWritingFlow_throws_on_null_output :
    correctWritingFlowBody none =
      .error (.thrown "AI did not return a valid output.") := rfl

/-- C3 (amended).  Failure modes surface to the caller as thrown
exceptions, not returned classified values: a null prompt output makes
`correctWritingFlow` throw its dedicated `Error` (distinguishable from
schema violations only by that message), a non-null output is returned
unchanged, and `summarizeContentFlow` forwards even a null output
unchecked (`return output!`). -/
theorem correctWritingFlow_empty_output_behaviour :
    correctWritingFlowBody none =
        .error (.thrown "AI did not return a valid output.") ∧
    (∀ o, correctWritingFlowBody (some o) = .ok o) ∧
    summarizeContentFlowBody none = none :=
  ⟨rfl, fun _ => rfl, rfl⟩

/-! ### Input defaults (claim C5) -/

/-- C5: the declared zod defaults are never applied.  Parsing a record
carrying only the two required fields leaves every optional field ABSENT
(`none`) — not `correctionLevel = "standard"`, not
`flagGrammar/flagSpelling/flagPunctuation = true` — because each schema
field chains `.optional()` AFTER `.default(v)`, and `ZodOptional`
short-circuits on an absent value before the default can fire. -/
theorem correctWritingInput_defaults_not_applied :
    parseCorrectWritingInput (.obj [("text", .str "hi"), ("language", .str "English")]) =
      .ok ⟨"hi", "English", none, none, none, none, none, none, none, none⟩ := rfl

/-! ### Round-trip of conformant responses (claim C6) -/

/-- C6.  A model response that exactly matches the output schema is
returned unchanged, field for field, as the success value — stated as a
general serialization round-trip through the correction pipeline, plus
the spec's concrete scenario A (correction) and scenario D (translation). -/
theorem flow_returns_conformant_response_unchanged :
    (∀ raw input o, parseCorrectWritingInput raw = .ok input →
      executeCorrectWriting raw (.payload (serializeCorrectWritingOutput o)) =
        ⟨.ok o, 1⟩) ∧
    executeCorrectWriting
        (.obj [("text", .str "I has a apple."), ("language", .str "English"),
          ("correctionLevel", .str "standard"), ("flagGrammar", .bool true)])
        (.payload (.obj [("correctedText", .str "I have an apple.")])) =
      ⟨.ok ⟨"I have an apple.", none, none, none, none, none⟩, 1⟩ ∧
    executeTranslateContent
        (.obj [("text", .str "Hello"), ("targetLanguage", .str "es-ES")])
        (.payload (.obj [("translatedText", .str "Hola")])) =
      ⟨.ok ⟨"Hola"⟩, 1⟩ := by
  refine ⟨?_, by rfl, by rfl⟩
  intro raw input o hin
  unfold executeCorrectWriting runPipeline
  rw [hin]
  simp [parseCorrectWritingOutput_serialize o]

/-- Witness for C6: the round-trip at a concrete input and a concrete
fully-populated output record. -/
theorem flow_returns_conformant_response_unchanged_witness :
    executeCorrectWriting (.obj [("text", .str "hey"), ("language", .str "English")])
        (.payload (serializeCorrectWritingOutput
          ⟨"Hey.", some "capitalised", some [⟨"hey", "greeting"⟩],
            some ⟨"informal", some "fine"⟩, some [⟨"hey there", "greeting", some "Hey there!"⟩],
            some "vary openers"⟩)) =
      ⟨.ok ⟨"Hey.", some "capitalised", some [⟨"hey", "greeting"⟩],
        some ⟨"informal", some "fine"⟩, some [⟨"hey there", "greeting", some "Hey there!"⟩],
        some "vary openers"⟩, 1⟩ :=
  flow_returns_conformant_response_unchanged.1
    (.obj [("text", .str "hey"), ("language", .str "English")])
    ⟨"hey", "English", none, none, none, none, none, none, none, none⟩ _ rfl

/-! ### Exactly one service call per invocation (claim C7) -/

/-- C7.  On any input each flow accepts, executing the flow makes exactly
one call to the external generation service — never zero and never more
than one — regardless of the service's outcome (provider error, empty
response, malformed payload or conformant payload alike). -/
theorem execute_makes_exactly_one_service_call :
    (∀ raw input svc, parseCorrectWritingInput raw = .ok input →
      (executeCorrectWriting raw svc).serviceCalls = 1) ∧
    (∀ raw input svc, parseTranslateContentInput raw = .ok input →
      (executeTranslateContent raw svc).serviceCalls = 1) ∧
    (∀ raw input svc, parseSummarizeContentInput raw = .ok input →
      (executeSummarizeContent raw svc).serviceCalls = 1) :=
  ⟨fun _ _ svc h => runPipeline_calls_of_ok svc h,
    fun _ _ svc h => runPipeline_calls_of_ok svc h,
    fun _ _ svc h => runPipeline_calls_of_ok svc h⟩

/-- Witness for C7: one call on a concrete valid input for each flow, under
a provider-error outcome (the count is outcome-independent). -/
theorem execute_makes_exactly_one_service_call_witness :
    (executeCorrectWriting (.obj [("text", .str "hi"), ("language", .str "English")])
      (.providerError "rate limit")).serviceCalls = 1 ∧
    (executeTranslateContent
      (.obj [("text", .str "Hello"), ("targetLanguage", .str "es-ES")])
      (.providerError "rate limit")).serviceCalls = 1 ∧
    (executeSummarizeContent (.obj [("text", .str "hi")])
      (.providerError "rate limit")).serviceCalls = 1 :=
  ⟨execute_makes_exactly_one_service_call.1 _
      ⟨"hi", "English", none, none, none, none, none, none, none, none⟩ _ rfl,
    execute_makes_exactly_one_service_call.2.1 _ ⟨"Hello", "es-ES"⟩ _ rfl,
    execute_makes_exactly_one_service_call.2.2 _ ⟨"hi", none⟩ _ rfl⟩

/-! ### Determinism of prompt rendering (claim C8) -/

/-- C8.  Each flow's `renderPrompt` is a pure function of the input
record: two structurally equal inputs (field-for-field equal) render
identical prompt strings, for the correction, summarize and translate
flows alike. -/
theorem renderPrompt_deterministic :
    (∀ i j : CorrectWritingInput, i.text = j.text → i.language = j.language →
      i.correctionLevel = j.correctionLevel → i.flagGrammar = j.flagGrammar →
      i.flagSpelling = j.flagSpelling → i.flagPunctuation = j.flagPunctuation →
      i.flagStyle = j.flagStyle → i.analyzeTone = j.analyzeTone →
      i.explainIdioms = j.explainIdioms →
      i.suggestStructureVariations = j.suggestStructureVariations →
      renderCorrectWritingPrompt i = renderCorrectWritingPrompt j) ∧
    (∀ s t : SummarizeContentInput, s.text = t.text → s.language = t.language →
      renderSummarizeContentPrompt s = renderSummarizeContentPrompt t) ∧
    (∀ s t : TranslateContentInput, s.text = t.text →
      s.targetLanguage = t.targetLanguage →
      renderTranslateContentPrompt s = renderTranslateContentPrompt t) := by
  refine ⟨?_, ?_, ?_⟩
  · intro i j h1 h2 h3 h4 h5 h6 h7 h8 h9 h10
    have : i = j := by cases i; cases j; simp_all
    rw [this]
  · intro s t h1 h2
    have : s = t := by cases s; cases t; simp_all
    rw [this]
  · intro s t h1 h2
    have : s = t := by cases s; cases t; simp_all
    rw [this]

/-- Witness for C8: determinism applied at concrete structurally equal
inputs of each flow. -/
theorem renderPrompt_deterministic_witness :
    renderCorrectWritingPrompt
        ⟨"hi", "English", some "standard", some true, some true, some true,
          some false, some false, some false, some false⟩ =
      renderCorrectWritingPrompt
        ⟨"hi", "English", some "standard", some true, some true, some true,
          some false, some false, some false, some false⟩ ∧
    renderSummarizeContentPrompt ⟨"hi", some "English"⟩ =
      renderSummarizeContentPrompt ⟨"hi", some "English"⟩ ∧
    renderTranslateContentPrompt ⟨"Hello", "es-ES"⟩ =
      renderTranslateContentPrompt ⟨"Hello", "es-ES"⟩ :=
  ⟨renderPrompt_deterministic.1 _ _ rfl rfl rfl rfl rfl rfl rfl rfl rfl rfl,
    renderPrompt_deterministic.2.1 _ _ rfl rfl,
    renderPrompt_deterministic.2.2 _ _ rfl rfl⟩

/-! ### Registry uniqueness (claim C9) -/

/-- C9.  Registering a definition whose name is already present fails with
`duplicateName` (the registry value is not replaced — `register` returns
no new registry on failure); a successful `register` keeps every existing
definition and preserves the at-most-one-definition-per-name invariant. -/
theorem register_rejects_duplicate_name :
    (∀ (r : List FlowDefinition) (d e : FlowDefinition), e ∈ r →
      e.name = d.name → register r d = .error (.duplicateName d.name)) ∧
    (∀ (r : List FlowDefinition) (d : FlowDefinition) (r' : List FlowDefinition),
      register r d = .ok r' → ∀ e, e ∈ r → e ∈ r') ∧
    (∀ (r : List FlowDefinition) (d : FlowDefinition) (r' : List FlowDefinition),
      register r d = .ok r' → (r.map FlowDefinition.name).Nodup →
      (r'.map FlowDefinition.name).Nodup) := by
  refine ⟨?_, ?_, ?_⟩
  · intro r d e he hname
    have hany : r.any (fun e' => e'.name == d.name) = true :=
      List.any_eq_true.2 ⟨e, he, by simp [hname]⟩
    simp [register, hany]
  · intro r d r' h e he
    unfold register at h
    by_cases hany : r.any (fun e' => e'.name == d.name) = true
    · simp [hany] at h
    · simp only [Bool.not_eq_true] at hany
      simp only [hany, Bool.false_eq_true, if_false, Except.ok.injEq] at h
      rw [← h]
      exact List.mem_append_left _ he
  · intro r d r' h hnd
    unfold register at h
    by_cases hany : r.any (fun e' => e'.name == d.name) = true
    · simp [hany] at h
    · simp only [Bool.not_eq_true] at hany
      simp only [hany, Bool.false_eq_true, if_false, Except.ok.injEq] at h
      rw [← h]
      have hnotin : d.name ∉ r.map FlowDefinition.name := by
        intro hmem
        obtain ⟨e, he, hname⟩ := List.mem_map.1 hmem
        have hx : r.any (fun e' => e'.name == d.name) = true :=
          List.any_eq_true.2 ⟨e, he, by simp [hname]⟩
        rw [hany] at hx
        exact Bool.false_ne_true hx
      simp only [List.map_append, List.map_cons, List.map_nil]
      exact List.Nodup.append hnd (List.nodup_singleton _)
        (List.disjoint_singleton.2 hnotin)

/-- Witness for C9: re-registering the correction flow definition against
a registry already holding it (and the other two flows) is rejected. -/
theorem register_rejects_duplicate_name_witness :
    register [correctWritingFlowDef, translateContentFlowDef,
        summarizeContentFlowDef] correctWritingFlowDef =
      .error (.duplicateName correctWritingFlowDef.name) :=
  register_rejects_duplicate_name.1 _ correctWritingFlowDef
    correctWritingFlowDef (by simp) rfl

/-! ### UI result exclusivity (claim C10) -/

theorem uiStep_preserves_resultExclusive (s : InterfaceState) (e : UIEvent)
    (h : resultExclusive s) : resultExclusive (uiStep s e) := by
  cases e with
  | submit data co tr =>
    simp only [uiStep]
    cases s.mode with
    | correct =>
      cases co with
      | ok r => right; rfl
      | error m => left; rfl
    | translate =>
      by_cases ht : s.targetLanguage = ""
      · simp only [ht, if_true]
        left; rfl
      · simp only [ht, if_false]
        cases tr with
        | ok r => left; rfl
        | error m => left; rfl
  | settingsChange newSettings =>
    cases h with
    | inl hc => left; exact hc
    | inr ht => right; exact ht
  | modeChange newMode => left; rfl
  | reset => left; rfl

theorem foldl_uiStep_resultExclusive :
    ∀ (events : List UIEvent) (s : InterfaceState), resultExclusive s →
      resultExclusive (events.foldl uiStep s)
  | [], _, h => h
  | e :: rest, s, h =>
    foldl_uiStep_resultExclusive rest (uiStep s e)
      (uiStep_preserves_resultExclusive s e h)

/-- C10.  In every state the CorrectionInterface component can reach, at
most one of `correctionResult` and `translationResult` is populated: a
submission assigns only the result matching the current mode (after
nulling both), and a mode change or a reset nulls both. -/
theorem interface_results_mutually_exclusive :
    (∀ events, resultExclusive (runUI events)) ∧
    (∀ s data co tr, s.mode = .correct →
      (uiStep s (.submit data co tr)).translationResult = none) ∧
    (∀ s data co tr, s.mode = .translate →
      (uiStep s (.submit data co tr)).correctionResult = none) ∧
    (∀ s m, (uiStep s (.modeChange m)).correctionResult = none ∧
      (uiStep s (.modeChange m)).translationResult = none) ∧
    (∀ s, (uiStep s .reset).correctionResult = none ∧
      (uiStep s .reset).translationResult = none) := by
  refine ⟨?_, ?_, ?_, fun s m => ⟨rfl, rfl⟩, fun s => ⟨rfl, rfl⟩⟩
  · intro events
    exact foldl_uiStep_resultExclusive events initialInterfaceState (Or.inl rfl)
  · intro s data co tr hm
    simp only [uiStep, hm]
    cases co with
    | ok r => rfl
    | error m => rfl
  · intro s data co tr hm
    simp only [uiStep, hm]
    by_cases ht : s.targetLanguage = ""
    · simp only [ht, if_true]
    · simp only [ht, if_false]
      cases tr with
      | ok r => rfl
      | error m => rfl

/-- Witness for C10: a correct-mode submission leaves the translation
result empty and a translate-mode submission leaves the correction result
empty, at concrete states. -/
theorem interface_results_mutually_exclusive_witness :
    (uiStep initialInterfaceState
      (.submit ⟨"I has a apple.", "English"⟩
        (.ok ⟨"I have an apple.", none, none, none, none, none⟩)
        (.ok ⟨"Hola"⟩))).translationResult = none ∧
    (uiStep ⟨false, none, none, defaultSettings, .translate, "Spanish", ⟨"Hello", "English"⟩⟩
      (.submit ⟨"Hello", "English"⟩
        (.ok ⟨"Hello.", none, none, none, none, none⟩)
        (.ok ⟨"Hola"⟩))).correctionResult = none :=
  ⟨interface_results_mutually_exclusive.2.1 initialInterfaceState _ _ _ rfl,
    interface_results_mutually_exclusive.2.2.1 _ _ _ _ rfl⟩

/-! ### Prompt coverage of input fields (claim C4) -/

/-- C4 counterexample: the claim fails in two ways.  (1) The summarize
flow's rendered prompt is not a function of every input field — two valid
inputs differing only in `language` render the identical instruction
string, because the template interpolates only `{{text}}`.  (2) In the
correction flow, an absent optional field states no enabled/disabled
state at all: on the valid input `{text: "hi", language: "English"}` the
rendered prompt contains the `Correct Grammar` label immediately followed
by the next label, and the `Correction Level` label immediately followed
by the level glosses — the Handlebars value between them is the empty
interpolation of `undefined`. -/
theorem prompt_reflection_counterexamples :
    renderSummarizeContentPrompt ⟨"Bonjour le monde", some "French"⟩ =
      renderSummarizeContentPrompt ⟨"Bonjour le monde", some "German"⟩ ∧
    occursIn ("- Correct Grammar: " ++ "\n- Correct Spelling: ")
      (renderCorrectWritingPrompt
        ⟨"hi", "English", none, none, none, none, none, none, none, none⟩) ∧
    occursIn ("- Correction Level: " ++ cwLevelGloss)
      (renderCorrectWritingPrompt
        ⟨"hi", "English", none, none, none, none, none, none, none, none⟩) :=
  ⟨rfl,
    ⟨cwHeader ++ "The user\x27s text is in " ++ "English" ++ "." ++
        "\n\nCorrection Settings:\n" ++ "- Correction Level: " ++ cwLevelGloss,
      "\n- Correct Punctuation: " ++ "\n- Improve Style: " ++ cwStyleGloss ++
        "\n- Analyze Tone: " ++ "\n- Explain Idioms: " ++
        "\n- Suggest Structure Variations: " ++ "\n\nOriginal Text:\n" ++
        "hi" ++ cwFooter,
      by simp only [renderCorrectWritingPrompt, hbOptStr, hbOptBool,
        String.append_assoc, String.empty_append]⟩,
    ⟨cwHeader ++ "The user\x27s text is in " ++ "English" ++ "." ++
        "\n\nCorrection Settings:\n",
      "- Correct Grammar: " ++ "\n- Correct Spelling: " ++
        "\n- Correct Punctuation: " ++ "\n- Improve Style: " ++ cwStyleGloss ++
        "\n- Analyze Tone: " ++ "\n- Explain Idioms: " ++
        "\n- Suggest Structure Variations: " ++ "\n\nOriginal Text:\n" ++
        "hi" ++ cwFooter,
      by simp only [renderCorrectWritingPrompt, hbOptStr, hbOptBool,
        String.append_assoc, String.empty_append]⟩⟩

/-- C4 (amended).  In the correction flow's rendered prompt the language
and text always appear verbatim; each optional field that is present
appears on its labelled settings line with its value — the level literal,
`true`/`false` for each toggle — independently of every other field; and
each optional field that is absent renders its label with an EMPTY value
(the label is immediately followed by the next template text, stating no
enabled/disabled state).  The summarize flow's prompt interpolates only
the (HTML-escaped) text field; its `language` field is never reflected. -/
theorem correctWritingPrompt_reflects_every_field (i : CorrectWritingInput) :
    occursIn ("The user\x27s text is in " ++ i.language ++ ".")
      (renderCorrectWritingPrompt i) ∧
    occursIn ("\n\nOriginal Text:\n" ++ i.text) (renderCorrectWritingPrompt i) ∧
    (∀ cl, i.correctionLevel = some cl →
      occursIn ("- Correction Level: " ++ cl) (renderCorrectWritingPrompt i)) ∧
    (∀ b, i.flagGrammar = some b →
      occursIn ("- Correct Grammar: " ++ hbBool b) (renderCorrectWritingPrompt i)) ∧
    (∀ b, i.flagSpelling = some b →
      occursIn ("\n- Correct Spelling: " ++ hbBool b) (renderCorrectWritingPrompt i)) ∧
    (∀ b, i.flagPunctuation = some b →
      occursIn ("\n- Correct Punctuation: " ++ hbBool b) (renderCorrectWritingPrompt i)) ∧
    (∀ b, i.flagStyle = some b →
      occursIn ("\n- Improve Style: " ++ hbBool b) (renderCorrectWritingPrompt i)) ∧
    (∀ b, i.analyzeTone = some b →
      occursIn ("\n- Analyze Tone: " ++ hbBool b) (renderCorrectWritingPrompt i)) ∧
    (∀ b, i.explainIdioms = some b →
      occursIn ("\n- Explain Idioms: " ++ hbBool b) (renderCorrectWritingPrompt i)) ∧
    (∀ b, i.suggestStructureVariations = some b →
      occursIn ("\n- Suggest Structure Variations: " ++ hbBool b)
        (renderCorrectWritingPrompt i)) ∧
    (i.correctionLevel = none →
      occursIn ("- Correction Level: " ++ cwLevelGloss)
        (renderCorrectWritingPrompt i)) ∧
    (i.flagGrammar = none →
      occursIn ("- Correct Grammar: " ++ "\n- Correct Spelling: ")
        (renderCorrectWritingPrompt i)) ∧
    (i.flagSpelling = none →
      occursIn ("\n- Correct Spelling: " ++ "\n- Correct Punctuation: ")
        (renderCorrectWritingPrompt i)) ∧
    (i.flagPunctuation = none →
      occursIn ("\n- Correct Punctuation: " ++ "\n- Improve Style: ")
        (renderCorrectWritingPrompt i)) ∧
    (i.flagStyle = none →
      occursIn ("\n- Improve Style: " ++ cwStyleGloss)
        (renderCorrectWritingPrompt i)) ∧
    (i.analyzeTone = none →
      occursIn ("\n- Analyze Tone: " ++ "\n- Explain Idioms: ")
        (renderCorrectWritingPrompt i)) ∧
    (i.explainIdioms = none →
      occursIn ("\n- Explain Idioms: " ++ "\n- Suggest Structure Variations: ")
        (renderCorrectWritingPrompt i)) ∧
    (i.suggestStructureVariations = none →
      occursIn ("\n- Suggest Structure Variations: " ++ "\n\nOriginal Text:\n")
        (renderCorrectWritingPrompt i)) ∧
    (∀ t l l', renderSummarizeContentPrompt ⟨t, l⟩ =
      renderSummarizeContentPrompt ⟨t, l'⟩) ∧
    (∀ t l, occursIn (hbEscape t) (renderSummarizeContentPrompt ⟨t, l⟩)) := by
  refine ⟨?_, ?_, ?_, ?_, ?_, ?_, ?_, ?_, ?_, ?_, ?_, ?_, ?_, ?_, ?_, ?_, ?_, ?_,
    fun t l l' => rfl, fun t l => ⟨sumSeg1, sumSeg2, rfl⟩⟩
  · exact ⟨cwHeader,
      "\n\nCorrection Settings:\n" ++ "- Correction Level: " ++
        hbOptStr i.correctionLevel ++ cwLevelGloss ++ "- Correct Grammar: " ++
        hbOptBool i.flagGrammar ++ "\n- Correct Spelling: " ++
        hbOptBool i.flagSpelling ++ "\n- Correct Punctuation: " ++
        hbOptBool i.flagPunctuation ++ "\n- Improve Style: " ++
        hbOptBool i.flagStyle ++ cwStyleGloss ++ "\n- Analyze Tone: " ++
        hbOptBool i.analyzeTone ++ "\n- Explain Idioms: " ++
        hbOptBool i.explainIdioms ++ "\n- Suggest Structure Variations: " ++
        hbOptBool i.suggestStructureVariations ++ "\n\nOriginal Text:\n" ++
        i.text ++ cwFooter,
      by simp only [renderCorrectWritingPrompt, String.append_assoc]⟩
  · exact ⟨cwHeader ++ "The user\x27s text is in " ++ i.language ++ "." ++
        "\n\nCorrection Settings:\n" ++ "- Correction Level: " ++
        hbOptStr i.correctionLevel ++ cwLevelGloss ++ "- Correct Grammar: " ++
        hbOptBool i.flagGrammar ++ "\n- Correct Spelling: " ++
        hbOptBool i.flagSpelling ++ "\n- Correct Punctuation: " ++
        hbOptBool i.flagPunctuation ++ "\n- Improve Style: " ++
        hbOptBool i.flagStyle ++ cwStyleGloss ++ "\n- Analyze Tone: " ++
        hbOptBool i.analyzeTone ++ "\n- Explain Idioms: " ++
        hbOptBool i.explainIdioms ++ "\n- Suggest Structure Variations: " ++
        hbOptBool i.suggestStructureVariations,
      cwFooter,
      by simp only [renderCorrectWritingPrompt, String.append_assoc]⟩
  · intro cl hcl
    exact ⟨cwHeader ++ "The user\x27s text is in " ++ i.language ++ "." ++
        "\n\nCorrection Settings:\n",
      cwLevelGloss ++ "- Correct Grammar: " ++ hbOptBool i.flagGrammar ++
        "\n- Correct Spelling: " ++ hbOptBool i.flagSpelling ++
        "\n- Correct Punctuation: " ++ hbOptBool i.flagPunctuation ++
        "\n- Improve Style: " ++ hbOptBool i.flagStyle ++ cwStyleGloss ++
        "\n- Analyze Tone: " ++ hbOptBool i.analyzeTone ++
        "\n- Explain Idioms: " ++ hbOptBool i.explainIdioms ++
        "\n- Suggest Structure Variations: " ++
        hbOptBool i.suggestStructureVariations ++ "\n\nOriginal Text:\n" ++
        i.text ++ cwFooter,
      by simp only [renderCorrectWritingPrompt, hcl, hbOptStr,
        String.append_assoc]⟩
  · intro b hb
    exact ⟨cwHeader ++ "The user\x27s text is in " ++ i.language ++ "." ++
        "\n\nCorrection Settings:\n" ++ "- Correction Level: " ++
        hbOptStr i.correctionLevel ++ cwLevelGloss,
      "\n- Correct Spelling: " ++ hbOptBool i.flagSpelling ++
        "\n- Correct Punctuation: " ++ hbOptBool i.flagPunctuation ++
        "\n- Improve Style: " ++ hbOptBool i.flagStyle ++ cwStyleGloss ++
        "\n- Analyze Tone: " ++ hbOptBool i.analyzeTone ++
        "\n- Explain Idioms: " ++ hbOptBool i.explainIdioms ++
        "\n- Suggest Structure Variations: " ++
        hbOptBool i.suggestStructureVariations ++ "\n\nOriginal Text:\n" ++
        i.text ++ cwFooter,
      by simp only [renderCorrectWritingPrompt, hb, hbOptBool,
        String.append_assoc]⟩
  · intro b hb
    exact ⟨cwHeader ++ "The user\x27s text is in " ++ i.language ++ "." ++
        "\n\nCorrection Settings:\n" ++ "- Correction Level: " ++
        hbOptStr i.correctionLevel ++ cwLevelGloss ++ "- Correct Grammar: " ++
        hbOptBool i.flagGrammar,
      "\n- Correct Punctuation: " ++ hbOptBool i.flagPunctuation ++
        "\n- Improve Style: " ++ hbOptBool i.flagStyle ++ cwStyleGloss ++
        "\n- Analyze Tone: " ++ hbOptBool i.analyzeTone ++
        "\n- Explain Idioms: " ++ hbOptBool i.explainIdioms ++
        "\n- Suggest Structure Variations: " ++
        hbOptBool i.suggestStructureVariations ++ "\n\nOriginal Text:\n" ++
        i.text ++ cwFooter,
      by simp only [renderCorrectWritingPrompt, hb, hbOptBool,
        String.append_assoc]⟩
  · intro b hb
    exact ⟨cwHeader ++ "The user\x27s text is in " ++ i.language ++ "." ++
        "\n\nCorrection Settings:\n" ++ "- Correction Level: " ++
        hbOptStr i.correctionLevel ++ cwLevelGloss ++ "- Correct Grammar: " ++
        hbOptBool i.flagGrammar ++ "\n- Correct Spelling: " ++
        hbOptBool i.flagSpelling,
      "\n- Improve Style: " ++ hbOptBool i.flagStyle ++ cwStyleGloss ++
        "\n- Analyze Tone: " ++ hbOptBool i.analyzeTone ++
        "\n- Explain Idioms: " ++ hbOptBool i.explainIdioms ++
        "\n- Suggest Structure Variations: " ++
        hbOptBool i.suggestStructureVariations ++ "\n\nOriginal Text:\n" ++
        i.text ++ cwFooter,
      by simp only [renderCorrectWritingPrompt, hb, hbOptBool,
        String.append_assoc]⟩
  · intro b hb
    exact ⟨cwHeader ++ "The user\x27s text is in " ++ i.language ++ "." ++
        "\n\nCorrection Settings:\n" ++ "- Correction Level: " ++
        hbOptStr i.correctionLevel ++ cwLevelGloss ++ "- Correct Grammar: " ++
        hbOptBool i.flagGrammar ++ "\n- Correct Spelling: " ++
        hbOptBool i.flagSpelling ++ "\n- Correct Punctuation: " ++
        hbOptBool i.flagPunctuation,
      cwStyleGloss ++ "\n- Analyze Tone: " ++ hbOptBool i.analyzeTone ++
        "\n- Explain Idioms: " ++ hbOptBool i.explainIdioms ++
        "\n- Suggest Structure Variations: " ++
        hbOptBool i.suggestStructureVariations ++ "\n\nOriginal Text:\n" ++
        i.text ++ cwFooter,
      by simp only [renderCorrectWritingPrompt, hb, hbOptBool,
        String.append_assoc]⟩
  · intro b hb
    exact ⟨cwHeader ++ "The user\x27s text is in " ++ i.language ++ "." ++
        "\n\nCorrection Settings:\n" ++ "- Correction Level: " ++
        hbOptStr i.correctionLevel ++ cwLevelGloss ++ "- Correct Grammar: " ++
        hbOptBool i.flagGrammar ++ "\n- Correct Spelling: " ++
        hbOptBool i.flagSpelling ++ "\n- Correct Punctuation: " ++
        hbOptBool i.flagPunctuation ++ "\n- Improve Style: " ++
        hbOptBool i.flagStyle ++ cwStyleGloss,
      "\n- Explain Idioms: " ++ hbOptBool i.explainIdioms ++
        "\n- Suggest Structure Variations: " ++
        hbOptBool i.suggestStructureVariations ++ "\n\nOriginal Text:\n" ++
        i.text ++ cwFooter,
      by simp only [renderCorrectWritingPrompt, hb, hbOptBool,
        String.append_assoc]⟩
  · intro b hb
    exact ⟨cwHeader ++ "The user\x27s text is in " ++ i.language ++ "." ++
        "\n\nCorrection Settings:\n" ++ "- Correction Level: " ++
        hbOptStr i.correctionLevel ++ cwLevelGloss ++ "- Correct Grammar: " ++
        hbOptBool i.flagGrammar ++ "\n- Correct Spelling: " ++
        hbOptBool i.flagSpelling ++ "\n- Correct Punctuation: " ++
        hbOptBool i.flagPunctuation ++ "\n- Improve Style: " ++
        hbOptBool i.flagStyle ++ cwStyleGloss ++ "\n- Analyze Tone: " ++
        hbOptBool i.analyzeTone,
      "\n- Suggest Structure Variations: " ++
        hbOptBool i.suggestStructureVariations ++ "\n\nOriginal Text:\n" ++
        i.text ++ cwFooter,
      by simp only [renderCorrectWritingPrompt, hb, hbOptBool,
        String.append_assoc]⟩
  · intro b hb
    exact ⟨cwHeader ++ "The user\x27s text is in " ++ i.language ++ "." ++
        "\n\nCorrection Settings:\n" ++ "- Correction Level: " ++
        hbOptStr i.correctionLevel ++ cwLevelGloss ++ "- Correct Grammar: " ++
        hbOptBool i.flagGrammar ++ "\n- Correct Spelling: " ++
        hbOptBool i.flagSpelling ++ "\n- Correct Punctuation: " ++
        hbOptBool i.flagPunctuation ++ "\n- Improve Style: " ++
        hbOptBool i.flagStyle ++ cwStyleGloss ++ "\n- Analyze Tone: " ++
        hbOptBool i.analyzeTone ++ "\n- Explain Idioms: " ++
        hbOptBool i.explainIdioms,
      "\n\nOriginal Text:\n" ++ i.text ++ cwFooter,
      by simp only [renderCorrectWritingPrompt, hb, hbOptBool,
        String.append_assoc]⟩
  · intro hcl
    exact ⟨cwHeader ++ "The user\x27s text is in " ++ i.language ++ "." ++
        "\n\nCorrection Settings:\n",
      "- Correct Grammar: " ++ hbOptBool i.flagGrammar ++
        "\n- Correct Spelling: " ++ hbOptBool i.flagSpelling ++
        "\n- Correct Punctuation: " ++ hbOptBool i.flagPunctuation ++
        "\n- Improve Style: " ++ hbOptBool i.flagStyle ++ cwStyleGloss ++
        "\n- Analyze Tone: " ++ hbOptBool i.analyzeTone ++
        "\n- Explain Idioms: " ++ hbOptBool i.explainIdioms ++
        "\n- Suggest Structure Variations: " ++
        hbOptBool i.suggestStructureVariations ++ "\n\nOriginal Text:\n" ++
        i.text ++ cwFooter,
      by simp only [renderCorrectWritingPrompt, hcl, hbOptStr,
        String.append_assoc, String.empty_append]⟩
  · intro hb
    exact ⟨cwHeader ++ "The user\x27s text is in " ++ i.language ++ "." ++
        "\n\nCorrection Settings:\n" ++ "- Correction Level: " ++
        hbOptStr i.correctionLevel ++ cwLevelGloss,
      hbOptBool i.flagSpelling ++ "\n- Correct Punctuation: " ++
        hbOptBool i.flagPunctuation ++ "\n- Improve Style: " ++
        hbOptBool i.flagStyle ++ cwStyleGloss ++ "\n- Analyze Tone: " ++
        hbOptBool i.analyzeTone ++ "\n- Explain Idioms: " ++
        hbOptBool i.explainIdioms ++ "\n- Suggest Structure Variations: " ++
        hbOptBool i.suggestStructureVariations ++ "\n\nOriginal Text:\n" ++
        i.text ++ cwFooter,
      by simp only [renderCorrectWritingPrompt, hb, hbOptBool,
        String.append_assoc, String.empty_append]⟩
  · intro hb
    exact ⟨cwHeader ++ "The user\x27s text is in " ++ i.language ++ "." ++
        "\n\nCorrection Settings:\n" ++ "- Correction Level: " ++
        hbOptStr i.correctionLevel ++ cwLevelGloss ++ "- Correct Grammar: " ++
        hbOptBool i.flagGrammar,
      hbOptBool i.flagPunctuation ++ "\n- Improve Style: " ++
        hbOptBool i.flagStyle ++ cwStyleGloss ++ "\n- Analyze Tone: " ++
        hbOptBool i.analyzeTone ++ "\n- Explain Idioms: " ++
        hbOptBool i.explainIdioms ++ "\n- Suggest Structure Variations: " ++
        hbOptBool i.suggestStructureVariations ++ "\n\nOriginal Text:\n" ++
        i.text ++ cwFooter,
      by simp only [renderCorrectWritingPrompt, hb, hbOptBool,
        String.append_assoc, String.empty_append]⟩
  · intro hb
    exact ⟨cwHeader ++ "The user\x27s text is in " ++ i.language ++ "." ++
        "\n\nCorrection Settings:\n" ++ "- Correction Level: " ++
        hbOptStr i.correctionLevel ++ cwLevelGloss ++ "- Correct Grammar: " ++
        hbOptBool i.flagGrammar ++ "\n- Correct Spelling: " ++
        hbOptBool i.flagSpelling,
      hbOptBool i.flagStyle ++ cwStyleGloss ++ "\n- Analyze Tone: " ++
        hbOptBool i.analyzeTone ++ "\n- Explain Idioms: " ++
        hbOptBool i.explainIdioms ++ "\n- Suggest Structure Variations: " ++
        hbOptBool i.suggestStructureVariations ++ "\n\nOriginal Text:\n" ++
        i.text ++ cwFooter,
      by simp only [renderCorrectWritingPrompt, hb, hbOptBool,
        String.append_assoc, String.empty_append]⟩
  · intro hb
    exact ⟨cwHeader ++ "The user\x27s text is in " ++ i.language ++ "." ++
        "\n\nCorrection Settings:\n" ++ "- Correction Level: " ++
        hbOptStr i.correctionLevel ++ cwLevelGloss ++ "- Correct Grammar: " ++
        hbOptBool i.flagGrammar ++ "\n- Correct Spelling: " ++
        hbOptBool i.flagSpelling ++ "\n- Correct Punctuation: " ++
        hbOptBool i.flagPunctuation,
      "\n- Analyze Tone: " ++ hbOptBool i.analyzeTone ++
        "\n- Explain Idioms: " ++ hbOptBool i.explainIdioms ++
        "\n- Suggest Structure Variations: " ++
        hbOptBool i.suggestStructureVariations ++ "\n\nOriginal Text:\n" ++
        i.text ++ cwFooter,
      by simp only [renderCorrectWritingPrompt, hb, hbOptBool,
        String.append_assoc, String.empty_append]⟩
  · intro hb
    exact ⟨cwHeader ++ "The user\x27s text is in " ++ i.language ++ "." ++
        "\n\nCorrection Settings:\n" ++ "- Correction Level: " ++
        hbOptStr i.correctionLevel ++ cwLevelGloss ++ "- Correct Grammar: " ++
        hbOptBool i.flagGrammar ++ "\n- Correct Spelling: " ++
        hbOptBool i.flagSpelling ++ "\n- Correct Punctuation: " ++
        hbOptBool i.flagPunctuation ++ "\n- Improve Style: " ++
        hbOptBool i.flagStyle ++ cwStyleGloss,
      hbOptBool i.explainIdioms ++ "\n- Suggest Structure Variations: " ++
        hbOptBool i.suggestStructureVariations ++ "\n\nOriginal Text:\n" ++
        i.text ++ cwFooter,
      by simp only [renderCorrectWritingPrompt, hb, hbOptBool,
        String.append_assoc, String.empty_append]⟩
  · intro hb
    exact ⟨cwHeader ++ "The user\x27s text is in " ++ i.language ++ "." ++
        "\n\nCorrection Settings:\n" ++ "- Correction Level: " ++
        hbOptStr i.correctionLevel ++ cwLevelGloss ++ "- Correct Grammar: " ++
        hbOptBool i.flagGrammar ++ "\n- Correct Spelling: " ++
        hbOptBool i.flagSpelling ++ "\n- Correct Punctuation: " ++
        hbOptBool i.flagPunctuation ++ "\n- Improve Style: " ++
        hbOptBool i.flagStyle ++ cwStyleGloss ++ "\n- Analyze Tone: " ++
        hbOptBool i.analyzeTone,
      hbOptBool i.suggestStructureVariations ++ "\n\nOriginal Text:\n" ++
        i.text ++ cwFooter,
      by simp only [renderCorrectWritingPrompt, hb, hbOptBool,
        String.append_assoc, String.empty_append]⟩
  · intro hb
    exact ⟨cwHeader ++ "The user\x27s text is in " ++ i.language ++ "." ++
        "\n\nCorrection Settings:\n" ++ "- Correction Level: " ++
        hbOptStr i.correctionLevel ++ cwLevelGloss ++ "- Correct Grammar: " ++
        hbOptBool i.flagGrammar ++ "\n- Correct Spelling: " ++
        hbOptBool i.flagSpelling ++ "\n- Correct Punctuation: " ++
        hbOptBool i.flagPunctuation ++ "\n- Improve Style: " ++
        hbOptBool i.flagStyle ++ cwStyleGloss ++ "\n- Analyze Tone: " ++
        hbOptBool i.analyzeTone ++ "\n- Explain Idioms: " ++
        hbOptBool i.explainIdioms,
      i.text ++ cwFooter,
      by simp only [renderCorrectWritingPrompt, hb, hbOptBool,
        String.append_assoc, String.empty_append]⟩

/-- Witness for C4 (amended): field coverage at a concrete input with a
MIX of present and absent optional fields — the present correction level
and grammar toggle appear with their values, while the absent spelling
toggle's label is followed directly by the punctuation label. -/
theorem correctWritingPrompt_reflects_every_field_witness :
    occursIn ("- Correction Level: " ++ "strict")
      (renderCorrectWritingPrompt
        ⟨"hi", "English", some "strict", some true, none, some false, none,
          none, some true, none⟩) ∧
    occursIn ("- Correct Grammar: " ++ hbBool true)
      (renderCorrectWritingPrompt
        ⟨"hi", "English", some "strict", some true, none, some false, none,
          none, some true, none⟩) ∧
    occursIn ("\n- Correct Spelling: " ++ "\n- Correct Punctuation: ")
      (renderCorrectWritingPrompt
        ⟨"hi", "English", some "strict", some true, none, some false, none,
          none, some true, none⟩) :=
  ⟨(correctWritingPrompt_reflects_every_field
      ⟨"hi", "English", some "strict", some true, none, some false, none,
        none, some true, none⟩).2.2.1 "strict" rfl,
    (correctWritingPrompt_reflects_every_field
      ⟨"hi", "English", some "strict", some true, none, some false, none,
        none, some true, none⟩).2.2.2.1 true rfl,
    (correctWritingPrompt_reflects_every_field
      ⟨"hi", "English", some "strict", some true, none, some false, none,
        none, some true, none⟩).2.2.2.2.2.2.2.2.2.2.2.2.1 rfl⟩

end PolyglotPal
